import Mathlib

/-!
Shallow embedding of `src/services/api_client.py` and `src/utils/utils.py`
from the mcp-server-legifrance repository: OAuth2 token lifecycle,
tenacity retry/backoff policy, error classification, and the
consumer-facing `make_api_request` wrapper.

Conventions of the embedding:
* Clock instants are integers; `datetime.now()` is passed explicitly as a
  `now` argument and held fixed within one operation.
* JSON values (`response.json()` results, payload dicts) are the inductive
  `JVal`; Python dicts are association lists with first-match lookup.
* Each `httpx` call is abstracted by a `RespEvent`: either a transport
  failure (`httpx.RequestError`) or a response carrying its status code,
  body text and JSON-decode result.
* Raised exceptions become `Except` error values; the
  `APIError.original_exception` field is not modelled (no claim uses it).
* tenacity `wait_exponential` follows tenacity 8.1 and later:
  the wait after failed attempt `n` is
  `max(max(0, min), min(multiplier * 2 ^ (n - 1), max))`.
-/

namespace Legifrance

/-- JSON-like values: what `response.json()` can return and what payload
dicts contain. `null` is Python `None`. Objects are association lists. -/
inductive JVal where
  | null
  | bool (b : Bool)
  | num (n : Int)
  | str (s : String)
  | arr (xs : List JVal)
  | obj (fields : List (String × JVal))

/-- Python truthiness of a JSON value, as used by
`not token_data.get("access_token")`. -/
def JVal.isTruthy : JVal → Bool
  | .null => false
  | .bool b => b
  | .num n => n != 0
  | .str s => !s.isEmpty
  | .arr xs => !xs.isEmpty
  | .obj fs => !fs.isEmpty

/-- Python `v is None`. -/
def JVal.isNone : JVal → Bool
  | .null => true
  | _ => false

/-- Python `int(x)` on the values that can appear as `expires_in`:
integers stay, booleans coerce, numeric strings parse; anything else
makes `int()` raise (`none`). -/
def JVal.pyInt : JVal → Option Int
  | .num n => some n
  | .bool b => some (if b then 1 else 0)
  | .str s => s.toInt?
  | _ => none

/-- Python `dict.get`: first-match lookup in an association list. -/
def lookupKey (k : String) : List (String × JVal) → Option JVal
  | [] => none
  | (k1, v) :: rest => if k1 = k then some v else lookupKey k rest

/-- `clean_dict` (src/utils/utils.py): drops the keys whose value is `None`. -/
def clean_dict (d : List (String × JVal)) : List (String × JVal) :=
  d.filter (fun p => !p.2.isNone)

/-- `TokenInfo` (pydantic model): an access token with an optional expiry
instant; `expires_at` stays `none` for static-token construction. -/
structure TokenInfo where
  access_token : String
  expires_at : Option Int := none

/-- The repository's error taxonomy (`APIError` subclasses). The `details`
dict is kept; `original_exception` is not modelled. -/
inductive ApiError where
  | authenticationError (message : String) (details : List (String × JVal))
  | dataParsingError (message : String) (details : List (String × JVal))
  | legifranceError (message : String) (details : List (String × JVal))

/-- `str(e)` for an `APIError`: the constructor passes `message` to
`Exception.__init__`, so `str` returns the message. -/
def ApiError.message : ApiError → String
  | .authenticationError m _ => m
  | .dataParsingError m _ => m
  | .legifranceError m _ => m

/-- The exceptions that can reach `_handle_request_error` /
`_handle_token_error`: `httpx.HTTPStatusError` (from `raise_for_status`),
`httpx.RequestError` (transport failure), `ValueError` (JSON decode
failure in `response.json()` / `int(...)`), an `APIError` raised inside
the `try` block (as `_process_token_response` does), or any other
exception. The carried string is what `str(e)` yields. -/
inductive PyExc where
  | httpStatusError (status : Nat) (text : String)
  | requestError (msg : String)
  | valueError (msg : String)
  | apiError (e : ApiError)
  | otherError (msg : String)

/-- Python `str(e)` of such an exception, as interpolated by the
`f"...: {e}"` messages. -/
def PyExc.pyStr : PyExc → String
  | .httpStatusError _ text => text
  | .requestError msg => msg
  | .valueError msg => msg
  | .apiError e => e.message
  | .otherError msg => msg

/-- `httpx.Response.is_success`: `raise_for_status` raises exactly when the
status code is not in the 2xx range. -/
def isSuccessStatus (status : Nat) : Bool :=
  200 ≤ status && status < 300

/-- `_handle_token_error`: classifies an exception from the token request.
HTTP 401/403 become `AuthenticationError`; other HTTP statuses become
`LegifranceError` with status and body in `details`; `httpx.RequestError`
becomes a connectivity `LegifranceError`; everything else (including an
`APIError` raised by `_process_token_response` inside the `try`) is
rewrapped as a generic `LegifranceError`. -/
def handle_token_error : PyExc → ApiError
  | .httpStatusError status text =>
    if status = 401 ∨ status = 403 then
      .authenticationError "Legifrance authentication failed"
        [("status_code", .num status), ("response", .str text)]
    else
      .legifranceError
        ("Error obtaining Legifrance access token: HTTP " ++ toString status)
        [("status_code", .num status), ("response", .str text)]
  | .requestError msg =>
    .legifranceError ("Error connecting to Legifrance auth server: " ++ msg) []
  | e =>
    .legifranceError
      ("Unexpected error obtaining Legifrance access token: " ++ e.pyStr) []

/-- `_handle_request_error`: classifies an exception from a data request.
HTTP 401/403 become `AuthenticationError`; other HTTP statuses become
`LegifranceError` naming the method; `httpx.RequestError` becomes a
connectivity `LegifranceError`; `ValueError` (JSON decode failure)
becomes `DataParsingError`; everything else a generic `LegifranceError`. -/
def handle_request_error (methodName : String) : PyExc → ApiError
  | .httpStatusError status text =>
    if status = 401 ∨ status = 403 then
      .authenticationError "Legifrance authentication failed"
        [("status_code", .num status), ("response", .str text)]
    else
      .legifranceError
        ("Legifrance API " ++ methodName ++ " failed: HTTP " ++ toString status)
        [("status_code", .num status), ("response", .str text)]
  | .requestError msg =>
    .legifranceError ("Error connecting to Legifrance API: " ++ msg) []
  | .valueError msg =>
    .dataParsingError "Failed to parse Legifrance response as JSON"
      [("error", .str msg)]
  | e =>
    .legifranceError
      ("Unexpected error in Legifrance API " ++ methodName ++ ": " ++ e.pyStr) []

/-- The guard of `_process_token_response`:
`not token_data.get("access_token") or token_data.get("access_token") == "null"`.
A missing key (`None`) is falsy; equality with `"null"` only holds for the
literal string. -/
def badAccessToken (v : Option JVal) : Bool :=
  !(match v with | some x => x.isTruthy | none => false)
    || (match v with | some (.str s) => s == "null" | _ => false)

/-- `_process_token_response`: rejects missing/falsy/literal-"null" access
tokens with `AuthenticationError` (raised as an exception inside the
caller's `try`, hence wrapped in `PyExc.apiError`); otherwise reads
`expires_in` (default 3600), sets `expires_at = now + (expires_in - 60)`
(the 60-second safety margin) and builds the `TokenInfo`. A non-integer
`expires_in` makes `int()` raise; a non-string token makes the pydantic
construction raise. -/
def process_token_response (token_data : List (String × JVal)) (now : Int) :
    Except PyExc TokenInfo :=
  if badAccessToken (lookupKey "access_token" token_data) then
    .error (.apiError (.authenticationError "Failed to obtain access token"
      [("response", .obj token_data)]))
  else
    match (match lookupKey "expires_in" token_data with
           | none => some (3600 : Int)
           | some v => v.pyInt) with
    | none => .error (.valueError "invalid literal for int()")
    | some expires_in =>
      match lookupKey "access_token" token_data with
      | some (.str s) => .ok ⟨s, some (now + (expires_in - 60))⟩
      | _ => .error (.otherError "validation error for TokenInfo")

/-- `_is_token_expired`: `expires_at is not None and now > expires_at`. -/
def is_token_expired (ti : TokenInfo) (now : Int) : Bool :=
  match ti.expires_at with
  | none => false
  | some t => decide (t < now)

/-- The mutable state of a `LegifranceApiClient` instance: the current
token, the `Authorization` entry of the `self._headers` dict, the same
entry on the synchronous transport handle (`self.client.headers`), and
the lazily-created asynchronous transport handle (`self._async_client`):
whether it exists and is not closed, and its `Authorization` entry. The
non-auth header entries (`Accept`, `Content-Type`) are constant and not
modelled. -/
structure ClientState where
  base_url : String
  token_info : TokenInfo
  headersAuth : Option String
  syncAuth : Option String
  asyncOpen : Bool
  asyncAuth : Option String

/-- The bearer header value `f"Bearer {access_token}"`. -/
def bearer (token : String) : String := "Bearer " ++ token

/-- `_update_auth_header`: writes the bearer header into `self._headers`
and `self.client.headers`, and into `self._async_client.headers` only when
that handle exists and is not closed. -/
def update_auth_header (st : ClientState) : ClientState :=
  let auth := bearer st.token_info.access_token
  { st with
    headersAuth := some auth
    syncAuth := some auth
    asyncAuth := if st.asyncOpen then some auth else st.asyncAuth }

/-- The `async_client` property: when `self._async_client` is `None` or
closed, a new `httpx.AsyncClient(headers=self._headers, ...)` is created,
snapshotting the current `Authorization` entry of `self._headers`. -/
def ensureAsyncClient (st : ClientState) : ClientState :=
  if st.asyncOpen then st
  else { st with asyncOpen := true, asyncAuth := st.headersAuth }

/-- `_ensure_token` / `_ensure_token_async`: when the current token is
expired, re-acquire one (`fetchToken` abstracts the result
`_get_access_token` would produce), store it and run
`_update_auth_header`; a failed re-acquisition propagates and leaves the
state unchanged (the exception is raised before the assignment). -/
def ensure_token (st : ClientState) (now : Int)
    (fetchToken : Except ApiError TokenInfo) :
    ClientState × Except ApiError Unit :=
  if is_token_expired st.token_info now then
    match fetchToken with
    | .ok ti => (update_auth_header { st with token_info := ti }, .ok ())
    | .error e => (st, .error e)
  else (st, .ok ())

/-- Python `s.lstrip("/")`: drop leading slashes (over the character
list, so that it evaluates by kernel reduction). -/
def lstripSlash (s : String) : String :=
  ⟨s.data.dropWhile (· = '/')⟩

/-- Python `s.rstrip("/")`: drop trailing slashes. -/
def rstripSlash (s : String) : String :=
  ⟨(s.data.reverse.dropWhile (· = '/')).reverse⟩

/-- `_build_url`: `f"{base_url}/{endpoint.lstrip('/')}"` (the base URL was
already right-stripped of `/` in the constructor). -/
def build_url (base_url endpoint : String) : String :=
  base_url ++ "/" ++ lstripSlash endpoint

/-- Outcome of one `httpx` call, as the surrounding `try` observes it:
either the transport raises (`httpx.RequestError`, carrying `str(e)`), or
a response arrives with its status code, its body text, and the result of
JSON-decoding that body (`.error msg` when `response.json()` raises a
`ValueError` with message `msg`). -/
inductive RespEvent where
  | transportError (msg : String)
  | response (status : Nat) (text : String) (json : Except String JVal)

/-- Trace of one tenacity-decorated call: the final carried state, the
returned value or the re-raised final exception, the number of attempts
started, and the backoff sleeps performed between attempts. -/
structure RetryRun (σ E A : Type) where
  final : σ
  result : Except E A
  attemptsMade : Nat
  sleeps : List ℚ

/-- tenacity `wait_exponential(multiplier, min=mn, max=mx)` with the
default `exp_base = 2` (tenacity 8.1 and later): the wait after failed
attempt `n` is `max(max(0, mn), min(multiplier * 2 ^ (n - 1), mx))`. -/
def waitExponential (multiplier mn mx : ℚ) (n : Nat) : ℚ :=
  max (max 0 mn) (min (multiplier * 2 ^ (n - 1)) mx)

/-- The wait schedule all four retry decorators in the file use:
`wait_exponential(multiplier=0.5, min=1, max=10)`. -/
def retryWait (n : Nat) : ℚ :=
  waitExponential (1 / 2) 1 10 n

/-- The tenacity attempt loop. `remaining` counts the retries still
allowed (`stop_after_attempt` bound minus attempts already started), `n`
is the current attempt number, `sleeps` accumulates performed backoff
waits in reverse. On failure with retries left it sleeps `wait n` and
retries; otherwise (`reraise=True`) the last exception is re-raised. -/
def retryLoop (f : Nat → σ → σ × Except E A) (wait : Nat → ℚ) :
    Nat → Nat → σ → List ℚ → RetryRun σ E A
  | remaining, n, st, sleeps =>
    match f n st with
    | (st1, .ok a) => ⟨st1, .ok a, n, sleeps.reverse⟩
    | (st1, .error e) =>
      match remaining with
      | 0 => ⟨st1, .error e, n, sleeps.reverse⟩
      | r + 1 => retryLoop f wait r (n + 1) st1 (wait n :: sleeps)

/-- A run under `@retry(stop=stop_after_attempt(3),
wait=wait_exponential(multiplier=0.5, min=1, max=10), reraise=True)`:
3 total attempts. -/
def retryCall (f : Nat → σ → σ × Except E A) (st : σ) : RetryRun σ E A :=
  retryLoop f retryWait 2 1 st []

/-- One attempt of `_get_access_token`: `httpx.post` to the token URL,
`raise_for_status`, `response.json()`, `_process_token_response`; every
exception goes through `_handle_token_error`. A 2xx body that decodes to
a non-dict makes `token_data.get` raise (`AttributeError`, abstracted). -/
def token_attempt (now : Int) : RespEvent → Except ApiError TokenInfo
  | .transportError msg => .error (handle_token_error (.requestError msg))
  | .response status text json =>
    if isSuccessStatus status then
      match json with
      | .error msg => .error (handle_token_error (.valueError msg))
      | .ok (.obj token_data) =>
        match process_token_response token_data now with
        | .ok ti => .ok ti
        | .error e => .error (handle_token_error e)
      | .ok _ =>
        .error (handle_token_error
          (.otherError "object has no attribute get"))
    else .error (handle_token_error (.httpStatusError status text))

/-- `_get_access_token` (and its async twin, which has identical
semantics): the retried token acquisition. `events` gives the token
endpoint's behaviour on each attempt. -/
def get_access_token (now : Int) (events : Nat → RespEvent) :
    RetryRun Unit ApiError TokenInfo :=
  retryCall (fun n _ => ((), token_attempt now (events n))) ()

/-- The request handed to the transport by one attempt of `request`:
`self.client.request(method=method, url=url, json=payload, params=params)`.
`jsonBody` is the payload exactly as given; `httpx` serializes `None`
values inside it as JSON `null`, it does not drop them. -/
structure SentRequest where
  method : String
  url : String
  jsonBody : Option JVal
  params : Option (List (String × JVal))

/-- The tail of one `request` attempt once the transport event is in:
`raise_for_status` then `response.json()`, with every exception classified
by `_handle_request_error` under the given method name. -/
def classifyEvent (methodName : String) : RespEvent → Except ApiError JVal
  | .transportError msg =>
    .error (handle_request_error methodName (.requestError msg))
  | .response status text json =>
    if isSuccessStatus status then
      match json with
      | .ok v => .ok v
      | .error msg =>
        .error (handle_request_error methodName (.valueError msg))
    else
      .error (handle_request_error methodName (.httpStatusError status text))

/-- One attempt of `request` (the body of the tenacity-wrapped function):
`_ensure_token`, build the URL, hand the request to the transport, then
classify the outcome. The carried state is the client state paired with
the list of requests handed to the transport so far; a token-refresh
failure propagates before anything is sent. -/
def requestStep (methodName method endpoint : String) (payload : Option JVal)
    (params : Option (List (String × JVal))) (now : Int)
    (fetchToken : Nat → Except ApiError TokenInfo) (events : Nat → RespEvent)
    (n : Nat) (s : ClientState × List SentRequest) :
    (ClientState × List SentRequest) × Except ApiError JVal :=
  match ensure_token s.1 now (fetchToken n) with
  | (st1, .error e) => ((st1, s.2), .error e)
  | (st1, .ok _) =>
    let sent : SentRequest :=
      ⟨method, build_url st1.base_url endpoint, payload, params⟩
    ((st1, s.2 ++ [sent]), classifyEvent methodName (events n))

/-- `request` / `request_async`: the tenacity-retried send, parametrized by
the method name used in error messages (`"request"` for the sync path,
`"async request"` for the async one — the two paths are otherwise
identical). -/
def requestRun (methodName method endpoint : String) (payload : Option JVal)
    (params : Option (List (String × JVal))) (now : Int)
    (fetchToken : Nat → Except ApiError TokenInfo) (events : Nat → RespEvent)
    (st : ClientState) : RetryRun (ClientState × List SentRequest) ApiError JVal :=
  retryCall (requestStep methodName method endpoint payload params now fetchToken events)
    (st, [])

/-- The synchronous `request`. -/
def request (method endpoint : String) (payload : Option JVal)
    (params : Option (List (String × JVal))) (now : Int)
    (fetchToken : Nat → Except ApiError TokenInfo) (events : Nat → RespEvent)
    (st : ClientState) : RetryRun (ClientState × List SentRequest) ApiError JVal :=
  requestRun "request" method endpoint payload params now fetchToken events st

/-- The asynchronous `request_async` (identical but for the method name in
error messages). -/
def request_async (method endpoint : String) (payload : Option JVal)
    (params : Option (List (String × JVal))) (now : Int)
    (fetchToken : Nat → Except ApiError TokenInfo) (events : Nat → RespEvent)
    (st : ClientState) : RetryRun (ClientState × List SentRequest) ApiError JVal :=
  requestRun "async request" method endpoint payload params now fetchToken events st

/-- `post`: `request("POST", endpoint, payload=payload)` — the payload is
forwarded unchanged, no query parameters. -/
def post (endpoint : String) (payload : Option JVal) (now : Int)
    (fetchToken : Nat → Except ApiError TokenInfo) (events : Nat → RespEvent)
    (st : ClientState) : RetryRun (ClientState × List SentRequest) ApiError JVal :=
  request "POST" endpoint payload none now fetchToken events st

/-- `post_async`: `request_async("POST", endpoint, payload=payload)`. -/
def post_async (endpoint : String) (payload : Option JVal) (now : Int)
    (fetchToken : Nat → Except ApiError TokenInfo) (events : Nat → RespEvent)
    (st : ClientState) : RetryRun (ClientState × List SentRequest) ApiError JVal :=
  request_async "POST" endpoint payload none now fetchToken events st

/-- What `get` can produce: parsed JSON, raw body text (the non-JSON
fallback), a raised `APIError`, or a raw `httpx` exception escaping from
the fallback path (which calls the transport outside any classifier). -/
inductive GetOutcome where
  | json (v : JVal)
  | text (t : String)
  | apiError (e : ApiError)
  | rawError (e : PyExc)

/-- `get`: `request("GET", ...)`; only a `DataParsingError` triggers the
fallback, which re-runs `_ensure_token`, performs one raw
`self.client.get(url, params=params)` (no retry, no classification),
`raise_for_status`, and returns `response.text`. Any other `APIError`
propagates. `fallbackFetch`/`fallbackEv` describe the environment of the
fallback call. -/
def get (endpoint : String) (params : Option (List (String × JVal)))
    (now : Int) (fetchToken : Nat → Except ApiError TokenInfo)
    (events : Nat → RespEvent) (fallbackFetch : Except ApiError TokenInfo)
    (fallbackEv : RespEvent) (st : ClientState) : ClientState × GetOutcome :=
  let run := request "GET" endpoint none params now fetchToken events st
  match run.result with
  | .ok v => (run.final.1, .json v)
  | .error (.dataParsingError _ _) =>
    match ensure_token run.final.1 now fallbackFetch with
    | (st1, .error e1) => (st1, .apiError e1)
    | (st1, .ok _) =>
      match fallbackEv with
      | .transportError msg => (st1, .rawError (.requestError msg))
      | .response status text _ =>
        if isSuccessStatus status then (st1, .text text)
        else (st1, .rawError (.httpStatusError status text))
  | .error e => (run.final.1, .apiError e)

/-- Python truthiness of an optional string argument, as tested by
`if token:` and `all([client_id, client_secret, token_url])`: absent or
empty strings are falsy. -/
def pyTruthyOptStr : Option String → Bool
  | none => false
  | some s => !s.isEmpty

/-- What `LegifranceApiClient.__init__` can do: build a client (recording
whether a credentials exchange was performed), raise `ValueError`, or
propagate the `APIError` raised by `_get_access_token`. -/
inductive InitOutcome where
  | made (st : ClientState) (exchanged : Bool)
  | valueErrorRaised
  | raised (e : ApiError)

/-- `LegifranceApiClient.__init__`: right-strips `/` from the base URL;
with a truthy `token` builds a never-expiring `TokenInfo` without any
exchange; otherwise, with all three credentials truthy, performs the
exchange (`tokenAcq` abstracts the result of `_get_access_token()`);
otherwise raises `ValueError`. On success both the `_headers` dict and the
sync transport get the bearer header; the async handle does not exist yet. -/
def clientInit (base_url : String)
    (token client_id client_secret token_url : Option String)
    (tokenAcq : Except ApiError TokenInfo) : InitOutcome :=
  let base := rstripSlash base_url
  if pyTruthyOptStr token then
    let ti : TokenInfo := ⟨token.getD "", none⟩
    .made ⟨base, ti, some (bearer ti.access_token), some (bearer ti.access_token),
      false, none⟩ false
  else if pyTruthyOptStr client_id && pyTruthyOptStr client_secret
      && pyTruthyOptStr token_url then
    match tokenAcq with
    | .ok ti =>
      .made ⟨base, ti, some (bearer ti.access_token), some (bearer ti.access_token),
        false, none⟩ true
    | .error e => .raised e
  else .valueErrorRaised

/-- What `get_api_client()` produces for its caller: a client, or a
propagated construction failure. -/
inductive AcquireOutcome where
  | got (st : ClientState)
  | valueErrorRaised
  | raised (e : ApiError)

/-- `get_api_client`: returns the module-level singleton when it exists;
otherwise constructs it (`init` abstracts the outcome of the
`LegifranceApiClient(...)` call with the configured settings), letting any
construction exception propagate. -/
def get_api_client (singleton : Option ClientState) (init : InitOutcome) :
    AcquireOutcome :=
  match singleton with
  | some st => .got st
  | none =>
    match init with
    | .made st _ => .got st
    | .valueErrorRaised => .valueErrorRaised
    | .raised e => .raised e

/-- What a call of `make_api_request` does at its boundary: return a JSON
value, or let an exception escape. -/
inductive MakeApiResult where
  | value (v : JVal)
  | raisedApi (e : ApiError)
  | raisedValueError

/-- `make_api_request(endpoint, arguments)`: obtains the singleton client
(outside the `try`, so construction failures escape), then calls
`client.post_async(f"/consult/{endpoint}", payload=arguments)` and
converts any `APIError` from that call into `{"error": str(e)}`. -/
def make_api_request (endpoint : String) (arguments : Option JVal)
    (singleton : Option ClientState) (init : InitOutcome) (now : Int)
    (fetchToken : Nat → Except ApiError TokenInfo) (events : Nat → RespEvent) :
    MakeApiResult :=
  match get_api_client singleton init with
  | .raised e => .raisedApi e
  | .valueErrorRaised => .raisedValueError
  | .got st =>
    match (post_async ("/consult/" ++ endpoint) arguments now fetchToken events
        st).result with
    | .ok v => .value v
    | .error e => .value (.obj [("error", .str e.message)])

/-- A concrete client state used by witnesses: a static-token client
(never-expiring token, bearer header on both handles, async handle not yet
created), as built by `clientInit` with a pre-supplied token. -/
def exampleClient : ClientState :=
  ⟨"https://api.example", ⟨"tok0", none⟩, some (bearer "tok0"),
    some (bearer "tok0"), false, none⟩

/-- Whether a token-acquisition outcome is a raised `AuthenticationError`
(as opposed to another error kind or a success). -/
def failsWithAuthenticationError : Except ApiError TokenInfo → Bool
  | .error (.authenticationError _ _) => true
  | _ => false

/-- An attempt function that immediately succeeds takes one attempt and
never sleeps. -/
theorem retryCall_ok_first {σ E A : Type} (f : Nat → σ → σ × Except E A)
    (st st1 : σ) (a : A) (h : f 1 st = (st1, .ok a)) :
    retryCall f st = ⟨st1, .ok a, 1, []⟩ := by
  simp [retryCall, retryLoop, h]

/-- An attempt function that fails twice then succeeds takes three
attempts with backoff sleeps `retryWait 1` and `retryWait 2`. -/
theorem retryCall_ok_third {σ E A : Type} (f : Nat → σ → σ × Except E A)
    (st st1 st2 st3 : σ) (e1 e2 : E) (a : A)
    (h1 : f 1 st = (st1, .error e1)) (h2 : f 2 st1 = (st2, .error e2))
    (h3 : f 3 st2 = (st3, .ok a)) :
    retryCall f st = ⟨st3, .ok a, 3, [retryWait 1, retryWait 2]⟩ := by
  simp [retryCall, retryLoop, h1, h2, h3]

/-- An attempt function that fails on all three attempts stops after the
third and re-raises the third failure unchanged. -/
theorem retryCall_all_fail {σ E A : Type} (f : Nat → σ → σ × Except E A)
    (st st1 st2 st3 : σ) (e1 e2 e3 : E)
    (h1 : f 1 st = (st1, .error e1)) (h2 : f 2 st1 = (st2, .error e2))
    (h3 : f 3 st2 = (st3, .error e3)) :
    retryCall f st = ⟨st3, .error e3, 3, [retryWait 1, retryWait 2]⟩ := by
  simp [retryCall, retryLoop, h1, h2, h3]

/-- The first configured backoff wait: `0.5 * 2^0 = 0.5`, floored to 1. -/
theorem retryWait_one : retryWait 1 = 1 := by
  norm_num [retryWait, waitExponential]

/-- The second configured backoff wait: `0.5 * 2^1 = 1`, so 1 again (the
floor of 1 and the raw value coincide). -/
theorem retryWait_two : retryWait 2 = 1 := by
  norm_num [retryWait, waitExponential]

/-- With a token that is not expired, one `request` attempt leaves the
client state unchanged, records exactly one transport request (method,
url built from the client's base URL, the payload unchanged, the query
parameters), and returns the classification of the transport event. -/
theorem requestStep_fresh (methodName method endpoint : String)
    (payload : Option JVal) (params : Option (List (String × JVal)))
    (now : Int) (tf : Nat → Except ApiError TokenInfo)
    (events : Nat → RespEvent) (n : Nat) (st : ClientState)
    (logs : List SentRequest)
    (hfresh : is_token_expired st.token_info now = false) :
    requestStep methodName method endpoint payload params now tf events n (st, logs)
      = ((st, logs ++ [⟨method, build_url st.base_url endpoint, payload, params⟩]),
        classifyEvent methodName (events n)) := by
  simp [requestStep, ensure_token, hfresh]

/-- With a valid token and a transport whose events all classify to the
same error, `request` makes 3 attempts, sleeps 1 time unit twice, sends
the same request three times, and re-raises the classified error. -/
theorem requestRun_const_error (methodName method endpoint : String)
    (payload : Option JVal) (params : Option (List (String × JVal)))
    (now : Int) (tf : Nat → Except ApiError TokenInfo)
    (events : Nat → RespEvent) (st : ClientState) (e : ApiError)
    (hfresh : is_token_expired st.token_info now = false)
    (hev : ∀ n, classifyEvent methodName (events n) = .error e) :
    requestRun methodName method endpoint payload params now tf events st
      = ⟨(st, List.replicate 3 ⟨method, build_url st.base_url endpoint, payload, params⟩),
        .error e, 3, [1, 1]⟩ := by
  have h1 := requestStep_fresh methodName method endpoint payload params now tf events 1 st [] hfresh
  have h2 := requestStep_fresh methodName method endpoint payload params now tf events 2 st
    [⟨method, build_url st.base_url endpoint, payload, params⟩] hfresh
  have h3 := requestStep_fresh methodName method endpoint payload params now tf events 3 st
    ([⟨method, build_url st.base_url endpoint, payload, params⟩]
      ++ [⟨method, build_url st.base_url endpoint, payload, params⟩]) hfresh
  rw [hev 1] at h1; rw [hev 2] at h2; rw [hev 3] at h3
  have := retryCall_all_fail
    (requestStep methodName method endpoint payload params now tf events)
    (st, []) _ _ _ e e e (by simpa using h1) (by simpa using h2) (by simpa using h3)
  rw [requestRun, this, retryWait_one, retryWait_two]
  simp [List.replicate]

/-- With a valid token, every request a `request` run hands to the
transport — whichever attempt it is sent on — carries the given method,
the URL built from the client's base URL, the payload unchanged, and the
query parameters. -/
theorem requestRun_sent_fresh (methodName method endpoint : String)
    (payload : Option JVal) (params : Option (List (String × JVal)))
    (now : Int) (tf : Nat → Except ApiError TokenInfo)
    (events : Nat → RespEvent) (st : ClientState)
    (hfresh : is_token_expired st.token_info now = false) :
    ∀ r ∈ (requestRun methodName method endpoint payload params now tf events st).final.2,
      r = ⟨method, build_url st.base_url endpoint, payload, params⟩ := by
  have key : ∀ (remaining : Nat) (n : Nat) (logs : List SentRequest) (sl : List ℚ),
      (∀ r ∈ logs, r = ⟨method, build_url st.base_url endpoint, payload, params⟩) →
      ∀ r ∈ (retryLoop (requestStep methodName method endpoint payload params now tf events)
          retryWait remaining n (st, logs) sl).final.2,
        r = ⟨method, build_url st.base_url endpoint, payload, params⟩ := by
    intro remaining
    induction remaining with
    | zero =>
      intro n logs sl hlogs r hr
      rw [retryLoop,
        requestStep_fresh methodName method endpoint payload params now tf events n st logs
          hfresh] at hr
      cases hce : classifyEvent methodName (events n) with
      | ok v =>
        rw [hce] at hr
        simp only [List.mem_append, List.mem_singleton] at hr
        rcases hr with hr | hr
        · exact hlogs r hr
        · exact hr
      | error e =>
        rw [hce] at hr
        simp only [List.mem_append, List.mem_singleton] at hr
        rcases hr with hr | hr
        · exact hlogs r hr
        · exact hr
    | succ rem ih =>
      intro n logs sl hlogs r hr
      rw [retryLoop,
        requestStep_fresh methodName method endpoint payload params now tf events n st logs
          hfresh] at hr
      cases hce : classifyEvent methodName (events n) with
      | ok v =>
        rw [hce] at hr
        simp only [List.mem_append, List.mem_singleton] at hr
        rcases hr with hr | hr
        · exact hlogs r hr
        · exact hr
      | error e =>
        rw [hce] at hr
        refine ih (n + 1) (logs ++ [⟨method, build_url st.base_url endpoint, payload, params⟩])
          (retryWait n :: sl) ?_ r hr
        intro r' hr'
        rcases List.mem_append.mp hr' with hr' | hr'
        · exact hlogs r' hr'
        · exact List.mem_singleton.mp hr'
  intro r hr
  exact key 2 1 [] [] (by simp) r hr

/-- `clean_dict` never leaves a key bound to `None`: whatever entry a
lookup finds in the filtered dict passed the not-`None` filter. -/
theorem lookupKey_clean_dict_ne_null (k : String) (d : List (String × JVal)) :
    lookupKey k (clean_dict d) ≠ some JVal.null := by
  induction d with
  | nil => simp [clean_dict, lookupKey]
  | cons p rest ih =>
    obtain ⟨k1, v⟩ := p
    by_cases hv : v.isNone
    · have hvn : v = JVal.null := by
        cases v <;> simp_all [JVal.isNone]
      simpa [clean_dict, List.filter_cons, hv] using ih
    · have hvn : v ≠ JVal.null := by
        cases v <;> simp_all [JVal.isNone]
      by_cases hk : k1 = k
      · simp [clean_dict, List.filter_cons, hv, lookupKey, hk, hvn]
      · simpa [clean_dict, List.filter_cons, hv, lookupKey, hk] using ih

/-- `clean_dict` preserves every key bound to a non-`None` value. -/
theorem lookupKey_clean_dict_of_ne_null (k : String) (d : List (String × JVal))
    (v : JVal) (h : lookupKey k d = some v) (hv : v ≠ JVal.null) :
    lookupKey k (clean_dict d) = some v := by
  induction d with
  | nil => simp [lookupKey] at h
  | cons p rest ih =>
    obtain ⟨k1, w⟩ := p
    by_cases hk : k1 = k
    · have hw : w = v := by
        simpa [lookupKey, hk] using h
      subst hw
      have hwn : w.isNone = false := by
        cases w <;> simp_all [JVal.isNone]
      simp [clean_dict, List.filter_cons, hwn, lookupKey, hk]
    · have h' : lookupKey k rest = some v := by
        simpa [lookupKey, hk] using h
      by_cases hw : w.isNone
      · simpa [clean_dict, List.filter_cons, hw] using ih h'
      · simpa [clean_dict, List.filter_cons, hw, lookupKey, hk] using ih h'

/-- Claim C1: a token built from a response with `expires_in = 3600` at
time `T` carries `expires_at = T + 3540`; `_is_token_expired` is false at
every instant up to `T + 3540` and true strictly after it (the 60-second
safety margin); and a `TokenInfo` without `expires_at` (static-token
construction) is never considered expired. -/
theorem c1_token_expiry (s : String) (T t : Int)
    (hs : s ≠ "") (hn : s ≠ "null") :
    process_token_response [("access_token", .str s), ("expires_in", .num 3600)] T
      = .ok ⟨s, some (T + 3540)⟩
    ∧ (t ≤ T + 3540 → is_token_expired ⟨s, some (T + 3540)⟩ t = false)
    ∧ (T + 3540 < t → is_token_expired ⟨s, some (T + 3540)⟩ t = true)
    ∧ (∀ ti : TokenInfo, ti.expires_at = none → is_token_expired ti t = false) := by
  refine ⟨?_, ?_, ?_, ?_⟩
  · have hsi : s.isEmpty = false := by
      rw [Bool.eq_false_iff]
      intro h
      exact hs ((String.isEmpty_iff s).mp h)
    simp [process_token_response, lookupKey, badAccessToken, JVal.isTruthy,
      JVal.pyInt, hsi, hn]
  · intro h
    simp only [is_token_expired, decide_eq_false_iff_not]
    omega
  · intro h
    simp only [is_token_expired, decide_eq_true_eq]
    omega
  · intro ti h
    simp [is_token_expired, h]

/-- Witness for C1 at `s = "tok"`, `T = 0`: the token expires at 3540,
is unexpired at instant 3540, expired at 3541, and a no-expiry token is
unexpired arbitrarily late. -/
theorem c1_token_expiry_witness :
    process_token_response [("access_token", .str "tok"), ("expires_in", .num 3600)] 0
      = .ok ⟨"tok", some (0 + 3540)⟩
    ∧ is_token_expired ⟨"tok", some (0 + 3540)⟩ 3540 = false
    ∧ is_token_expired ⟨"tok", some (0 + 3540)⟩ 3541 = true
    ∧ is_token_expired ⟨"tok", none⟩ 99999 = false := by
  obtain ⟨h1, h2, -, -⟩ := c1_token_expiry "tok" 0 3540 (by decide) (by decide)
  obtain ⟨-, -, h3, h4⟩ := c1_token_expiry "tok" 0 3541 (by decide) (by decide)
  obtain ⟨-, -, -, h5⟩ := c1_token_expiry "tok" 0 99999 (by decide) (by decide)
  exact ⟨h1, h2 (by omega), h3 (by omega), h5 ⟨"tok", none⟩ rfl⟩

/-- Claim C4 counterexample: for a token response `{}` (no `access_token`
at all, HTTP 200), the full `_get_access_token` pipeline does NOT fail
with `AuthenticationError`: the `AuthenticationError` raised by
`_process_token_response` inside the `try` is caught by the blanket
`except Exception` and rewrapped by `_handle_token_error`'s fallback
branch into a `LegifranceError`. -/
theorem c4_token_rejection_counterexample :
    (get_access_token 0 (fun _ => .response 200 "" (.ok (.obj [])))).result
      = .error (.legifranceError
          "Unexpected error obtaining Legifrance access token: Failed to obtain access token"
          [])
    ∧ failsWithAuthenticationError
        (get_access_token 0 (fun _ => .response 200 "" (.ok (.obj [])))).result
        = false := ⟨rfl, rfl⟩

/-- Claim C4 amended: for every token response whose `access_token` is
missing, falsy (empty or null) or the literal string `"null"`,
`_process_token_response` raises `AuthenticationError` and never builds a
`TokenInfo`; but `_get_access_token` rewraps that exception, so token
acquisition as a whole fails (after its 3 attempts) with a
`LegifranceError` carrying the authentication message — still never
producing a `TokenInfo`. -/
theorem c4_token_rejection_amended (d : List (String × JVal)) (now : Int)
    (status : Nat) (text : String) (events : Nat → RespEvent)
    (hbad : badAccessToken (lookupKey "access_token" d) = true)
    (hst : isSuccessStatus status = true)
    (hev : ∀ n, events n = .response status text (.ok (.obj d))) :
    process_token_response d now
      = .error (.apiError (.authenticationError "Failed to obtain access token"
          [("response", .obj d)]))
    ∧ (get_access_token now events).result
        = .error (.legifranceError
            "Unexpected error obtaining Legifrance access token: Failed to obtain access token"
            [])
    ∧ (get_access_token now events).attemptsMade = 3 := by
  have hproc : process_token_response d now
      = .error (.apiError (.authenticationError "Failed to obtain access token"
          [("response", .obj d)])) := by
    simp [process_token_response, hbad]
  have hatt : ∀ n, token_attempt now (events n)
      = .error (.legifranceError
          "Unexpected error obtaining Legifrance access token: Failed to obtain access token"
          []) := by
    intro n
    rw [hev n]
    simp [token_attempt, hst, hproc, handle_token_error, PyExc.pyStr, ApiError.message]
  have hrun := retryCall_all_fail (fun n _ => ((), token_attempt now (events n)))
    () () () ()
    (.legifranceError
      "Unexpected error obtaining Legifrance access token: Failed to obtain access token" [])
    (.legifranceError
      "Unexpected error obtaining Legifrance access token: Failed to obtain access token" [])
    (.legifranceError
      "Unexpected error obtaining Legifrance access token: Failed to obtain access token" [])
    (by simp only [hatt]) (by simp only [hatt]) (by simp only [hatt])
  have hg : get_access_token now events
      = ⟨(), .error (.legifranceError
          "Unexpected error obtaining Legifrance access token: Failed to obtain access token"
          []), 3, [retryWait 1, retryWait 2]⟩ := hrun
  rw [hg]
  exact ⟨hproc, rfl, rfl⟩

/-- Witness for C4's amended theorem at two concrete bad responses: the
empty dict (missing `access_token`) and the literal string `"null"`. -/
theorem c4_token_rejection_witness :
    process_token_response [] 0
      = .error (.apiError (.authenticationError "Failed to obtain access token"
          [("response", .obj [])]))
    ∧ (get_access_token 0 (fun _ => .response 200 "" (.ok (.obj [])))).attemptsMade = 3
    ∧ process_token_response [("access_token", .str "null")] 5
      = .error (.apiError (.authenticationError "Failed to obtain access token"
          [("response", .obj [("access_token", .str "null")])])) := by
  obtain ⟨h1, -, h3⟩ := c4_token_rejection_amended [] 0 200 ""
    (fun _ => .response 200 "" (.ok (.obj []))) (by decide) (by decide) (fun _ => rfl)
  obtain ⟨h4, -, -⟩ := c4_token_rejection_amended [("access_token", .str "null")] 5 200 ""
    (fun _ => .response 200 "" (.ok (.obj [("access_token", .str "null")])))
    (by decide) (by decide) (fun _ => rfl)
  exact ⟨h1, h3, h4⟩

/-- Claim C8: when the token endpoint answers HTTP 401 (or 403) on every
attempt, `_get_access_token` blindly retries to the attempt cap — 3 total
attempts with two backoff sleeps — and then re-raises the final
`AuthenticationError` (carrying the status and the third response's
body), rather than failing fast on the first rejection. -/
theorem c8_token_auth_retry (now : Int) (status : Nat) (texts : Nat → String)
    (js : Nat → Except String JVal) (events : Nat → RespEvent)
    (hs : status = 401 ∨ status = 403)
    (hev : ∀ n, events n = .response status (texts n) (js n)) :
    (get_access_token now events).attemptsMade = 3
    ∧ (get_access_token now events).result
        = .error (.authenticationError "Legifrance authentication failed"
            [("status_code", .num status), ("response", .str (texts 3))])
    ∧ (get_access_token now events).sleeps = [1, 1] := by
  have hatt : ∀ n, token_attempt now (events n)
      = .error (.authenticationError "Legifrance authentication failed"
          [("status_code", .num status), ("response", .str (texts n))]) := by
    intro n
    rw [hev n]
    rcases hs with h | h <;> subst h <;>
      simp [token_attempt, isSuccessStatus, handle_token_error]
  have hrun := retryCall_all_fail (fun n _ => ((), token_attempt now (events n)))
    () () () ()
    (.authenticationError "Legifrance authentication failed"
      [("status_code", .num status), ("response", .str (texts 1))])
    (.authenticationError "Legifrance authentication failed"
      [("status_code", .num status), ("response", .str (texts 2))])
    (.authenticationError "Legifrance authentication failed"
      [("status_code", .num status), ("response", .str (texts 3))])
    (by simp only [hatt]) (by simp only [hatt]) (by simp only [hatt])
  have hg : get_access_token now events
      = ⟨(), .error (.authenticationError "Legifrance authentication failed"
          [("status_code", .num status), ("response", .str (texts 3))]),
        3, [retryWait 1, retryWait 2]⟩ := hrun
  rw [hg, retryWait_one, retryWait_two]
  exact ⟨rfl, rfl, rfl⟩

/-- Witness for C8: a token endpoint that always answers 401 with body
`"denied"` exhausts 3 attempts and surfaces the `AuthenticationError`. -/
theorem c8_token_auth_retry_witness :
    (get_access_token 0 (fun _ => .response 401 "denied" (.error "x"))).attemptsMade = 3
    ∧ (get_access_token 0 (fun _ => .response 401 "denied" (.error "x"))).result
        = .error (.authenticationError "Legifrance authentication failed"
            [("status_code", .num 401), ("response", .str "denied")])
    ∧ (get_access_token 0 (fun _ => .response 401 "denied" (.error "x"))).sleeps = [1, 1] :=
  c8_token_auth_retry 0 401 (fun _ => "denied") (fun _ => .error "x")
    (fun _ => .response 401 "denied" (.error "x")) (Or.inl rfl) (fun _ => rfl)

/-- Claim C5: classification of a failed data request. An HTTP 401/403
response makes `request` raise `AuthenticationError` with the status and
body in its details; any other non-2xx status makes it raise
`LegifranceError` with status and body in its details; a 2xx response
whose body fails to decode as JSON makes it raise `DataParsingError`. -/
theorem c5_error_classification (st : ClientState) (method endpoint : String)
    (payload : Option JVal) (params : Option (List (String × JVal)))
    (now : Int) (tf : Nat → Except ApiError TokenInfo)
    (status : Nat) (text msg : String)
    (hfresh : is_token_expired st.token_info now = false) :
    ((status = 401 ∨ status = 403) →
      (request method endpoint payload params now tf
          (fun _ => .response status text (.error msg)) st).result
        = .error (.authenticationError "Legifrance authentication failed"
            [("status_code", .num status), ("response", .str text)]))
    ∧ (isSuccessStatus status = false → ¬(status = 401 ∨ status = 403) →
      (request method endpoint payload params now tf
          (fun _ => .response status text (.error msg)) st).result
        = .error (.legifranceError
            ("Legifrance API request failed: HTTP " ++ toString status)
            [("status_code", .num status), ("response", .str text)]))
    ∧ (isSuccessStatus status = true →
      (request method endpoint payload params now tf
          (fun _ => .response status text (.error msg)) st).result
        = .error (.dataParsingError "Failed to parse Legifrance response as JSON"
            [("error", .str msg)])) := by
  refine ⟨?_, ?_, ?_⟩
  · intro hs
    have hsf : isSuccessStatus status = false := by
      rcases hs with h | h <;> subst h <;> decide
    have hcl : ∀ n : Nat,
        classifyEvent "request"
          ((fun _ => RespEvent.response status text (.error msg)) n)
        = .error (.authenticationError "Legifrance authentication failed"
            [("status_code", .num status), ("response", .str text)]) := by
      intro n
      simp [classifyEvent, hsf, handle_request_error, hs]
    have hr : request method endpoint payload params now tf
        (fun _ => .response status text (.error msg)) st
        = ⟨(st, List.replicate 3 ⟨method, build_url st.base_url endpoint, payload, params⟩),
          .error (.authenticationError "Legifrance authentication failed"
            [("status_code", .num status), ("response", .str text)]), 3, [1, 1]⟩ :=
      requestRun_const_error "request" method endpoint payload params now tf
        (fun _ => .response status text (.error msg)) st _ hfresh hcl
    rw [hr]
  · intro hsf hs
    have hcl : ∀ n : Nat,
        classifyEvent "request"
          ((fun _ => RespEvent.response status text (.error msg)) n)
        = .error (.legifranceError
            ("Legifrance API request failed: HTTP " ++ toString status)
            [("status_code", .num status), ("response", .str text)]) := by
      intro n
      simp [classifyEvent, hsf, handle_request_error, hs]
    have hr : request method endpoint payload params now tf
        (fun _ => .response status text (.error msg)) st
        = ⟨(st, List.replicate 3 ⟨method, build_url st.base_url endpoint, payload, params⟩),
          .error (.legifranceError
            ("Legifrance API request failed: HTTP " ++ toString status)
            [("status_code", .num status), ("response", .str text)]), 3, [1, 1]⟩ :=
      requestRun_const_error "request" method endpoint payload params now tf
        (fun _ => .response status text (.error msg)) st _ hfresh hcl
    rw [hr]
  · intro hst
    have hcl : ∀ n : Nat,
        classifyEvent "request"
          ((fun _ => RespEvent.response status text (.error msg)) n)
        = .error (.dataParsingError "Failed to parse Legifrance response as JSON"
            [("error", .str msg)]) := by
      intro n
      simp [classifyEvent, hst, handle_request_error]
    have hr : request method endpoint payload params now tf
        (fun _ => .response status text (.error msg)) st
        = ⟨(st, List.replicate 3 ⟨method, build_url st.base_url endpoint, payload, params⟩),
          .error (.dataParsingError "Failed to parse Legifrance response as JSON"
            [("error", .str msg)]), 3, [1, 1]⟩ :=
      requestRun_const_error "request" method endpoint payload params now tf
        (fun _ => .response status text (.error msg)) st _ hfresh hcl
    rw [hr]

/-- Witness for C5: a 401 response with body `"denied"` yields
`AuthenticationError`; a 500 response with body `{"detail": "x"}` yields
`LegifranceError` with status and body in the details; a 200 response
with a non-JSON body yields `DataParsingError`. -/
theorem c5_error_classification_witness :
    (request "POST" "code" none none 0 (fun _ => .ok ⟨"tok0", none⟩)
        (fun _ => .response 401 "denied" (.error "x")) exampleClient).result
      = .error (.authenticationError "Legifrance authentication failed"
          [("status_code", .num 401), ("response", .str "denied")])
    ∧ (request "POST" "code" none none 0 (fun _ => .ok ⟨"tok0", none⟩)
        (fun _ => .response 500 "\x7b\"detail\": \"x\"\x7d" (.error "x")) exampleClient).result
      = .error (.legifranceError
          ("Legifrance API request failed: HTTP " ++ toString 500)
          [("status_code", .num 500), ("response", .str "\x7b\"detail\": \"x\"\x7d")])
    ∧ (request "POST" "code" none none 0 (fun _ => .ok ⟨"tok0", none⟩)
        (fun _ => .response 200 "pong" (.error "Expecting value")) exampleClient).result
      = .error (.dataParsingError "Failed to parse Legifrance response as JSON"
          [("error", .str "Expecting value")]) := by
  refine ⟨?_, ?_, ?_⟩
  · exact (c5_error_classification exampleClient "POST" "code" none none 0
      (fun _ => .ok ⟨"tok0", none⟩) 401 "denied" "x" rfl).1 (Or.inl rfl)
  · exact (c5_error_classification exampleClient "POST" "code" none none 0
      (fun _ => .ok ⟨"tok0", none⟩) 500 "\x7b\"detail\": \"x\"\x7d" "x" rfl).2.1
      (by decide) (by decide)
  · exact (c5_error_classification exampleClient "POST" "code" none none 0
      (fun _ => .ok ⟨"tok0", none⟩) 200 "pong" "Expecting value" rfl).2.2 (by decide)

/-- Claim C6 counterexample: for a transport that fails on the first two
attempts and succeeds on the third, the two backoff sleeps are 1 and 1 —
not approximately 1 and 2 as claimed. tenacity computes
`multiplier * 2 ^ (attempt - 1)` (raw waits 0.5 then 1), and the
configured floor of 1 lifts both to 1. -/
theorem c6_retry_backoff_counterexample :
    (request "GET" "ping" none none 0 (fun _ => .ok ⟨"tok0", none⟩)
        (fun n => if n ≤ 2 then .transportError "boom"
          else .response 200 "ok" (.ok (.obj []))) exampleClient).sleeps
      = [1, 1]
    ∧ (request "GET" "ping" none none 0 (fun _ => .ok ⟨"tok0", none⟩)
        (fun n => if n ≤ 2 then .transportError "boom"
          else .response 200 "ok" (.ok (.obj []))) exampleClient).sleeps
      ≠ [1, 2] := by
  have h : (request "GET" "ping" none none 0 (fun _ => .ok ⟨"tok0", none⟩)
      (fun n => if n ≤ 2 then .transportError "boom"
        else .response 200 "ok" (.ok (.obj []))) exampleClient).sleeps
      = [retryWait 1, retryWait 2] := rfl
  rw [h, retryWait_one, retryWait_two]
  refine ⟨rfl, ?_⟩
  intro hcontra
  simp at hcontra

/-- Claim C6 amended: with a valid token, a transport that fails on the
first two attempts and succeeds on the third makes `request` return the
successful result after exactly 2 retries (3 attempts), with backoff
sleeps of 1 and 1 time units (raw exponential waits 0.5 and 1, both
lifted by the configured floor of 1); a transport failing on all three
attempts makes `request` perform exactly 3 attempts and re-raise the
third attempt's classified error unchanged. -/
theorem c6_retry_policy_amended (st : ClientState) (method endpoint : String)
    (payload : Option JVal) (params : Option (List (String × JVal)))
    (now : Int) (tf : Nat → Except ApiError TokenInfo) (events : Nat → RespEvent)
    (hfresh : is_token_expired st.token_info now = false) :
    (∀ (e1 e2 : ApiError) (v : JVal),
      classifyEvent "request" (events 1) = .error e1 →
      classifyEvent "request" (events 2) = .error e2 →
      classifyEvent "request" (events 3) = .ok v →
      (request method endpoint payload params now tf events st).result = .ok v
      ∧ (request method endpoint payload params now tf events st).attemptsMade = 3
      ∧ (request method endpoint payload params now tf events st).sleeps = [1, 1])
    ∧ (∀ e1 e2 e3 : ApiError,
      classifyEvent "request" (events 1) = .error e1 →
      classifyEvent "request" (events 2) = .error e2 →
      classifyEvent "request" (events 3) = .error e3 →
      (request method endpoint payload params now tf events st).result = .error e3
      ∧ (request method endpoint payload params now tf events st).attemptsMade = 3
      ∧ (request method endpoint payload params now tf events st).sleeps = [1, 1]) := by
  have k1 := requestStep_fresh "request" method endpoint payload params now tf events
    1 st [] hfresh
  have k2 := requestStep_fresh "request" method endpoint payload params now tf events
    2 st [⟨method, build_url st.base_url endpoint, payload, params⟩] hfresh
  have k3 := requestStep_fresh "request" method endpoint payload params now tf events
    3 st [⟨method, build_url st.base_url endpoint, payload, params⟩,
      ⟨method, build_url st.base_url endpoint, payload, params⟩] hfresh
  constructor
  · intro e1 e2 v h1 h2 h3
    rw [h1] at k1; rw [h2] at k2; rw [h3] at k3
    have hrun := retryCall_ok_third
      (requestStep "request" method endpoint payload params now tf events)
      (st, [])
      (st, [⟨method, build_url st.base_url endpoint, payload, params⟩])
      (st, [⟨method, build_url st.base_url endpoint, payload, params⟩,
        ⟨method, build_url st.base_url endpoint, payload, params⟩])
      (st, [⟨method, build_url st.base_url endpoint, payload, params⟩,
        ⟨method, build_url st.base_url endpoint, payload, params⟩,
        ⟨method, build_url st.base_url endpoint, payload, params⟩])
      e1 e2 v (by simpa using k1) (by simpa using k2) (by simpa using k3)
    have hr : request method endpoint payload params now tf events st
        = ⟨(st, [⟨method, build_url st.base_url endpoint, payload, params⟩,
            ⟨method, build_url st.base_url endpoint, payload, params⟩,
            ⟨method, build_url st.base_url endpoint, payload, params⟩]),
          .ok v, 3, [retryWait 1, retryWait 2]⟩ := hrun
    rw [hr, retryWait_one, retryWait_two]
    exact ⟨rfl, rfl, rfl⟩
  · intro e1 e2 e3 h1 h2 h3
    rw [h1] at k1; rw [h2] at k2; rw [h3] at k3
    have hrun := retryCall_all_fail
      (requestStep "request" method endpoint payload params now tf events)
      (st, [])
      (st, [⟨method, build_url st.base_url endpoint, payload, params⟩])
      (st, [⟨method, build_url st.base_url endpoint, payload, params⟩,
        ⟨method, build_url st.base_url endpoint, payload, params⟩])
      (st, [⟨method, build_url st.base_url endpoint, payload, params⟩,
        ⟨method, build_url st.base_url endpoint, payload, params⟩,
        ⟨method, build_url st.base_url endpoint, payload, params⟩])
      e1 e2 e3 (by simpa using k1) (by simpa using k2) (by simpa using k3)
    have hr : request method endpoint payload params now tf events st
        = ⟨(st, [⟨method, build_url st.base_url endpoint, payload, params⟩,
            ⟨method, build_url st.base_url endpoint, payload, params⟩,
            ⟨method, build_url st.base_url endpoint, payload, params⟩]),
          .error e3, 3, [retryWait 1, retryWait 2]⟩ := hrun
    rw [hr, retryWait_one, retryWait_two]
    exact ⟨rfl, rfl, rfl⟩

/-- Witness for C6's amended theorem: two transport failures then a 200
JSON response return the parsed value after 3 attempts and sleeps of
1 and 1; three transport failures re-raise the third connectivity
error. -/
theorem c6_retry_policy_witness :
    (request "GET" "ping" none none 0 (fun _ => .ok ⟨"tok0", none⟩)
        (fun n => if n ≤ 2 then .transportError "boom"
          else .response 200 "ok" (.ok (.str "pong"))) exampleClient).result
      = .ok (.str "pong")
    ∧ (request "GET" "ping" none none 0 (fun _ => .ok ⟨"tok0", none⟩)
        (fun n => if n ≤ 2 then .transportError "boom"
          else .response 200 "ok" (.ok (.str "pong"))) exampleClient).attemptsMade = 3
    ∧ (request "GET" "ping" none none 0 (fun _ => .ok ⟨"tok0", none⟩)
        (fun _ => .transportError "down") exampleClient).result
      = .error (.legifranceError "Error connecting to Legifrance API: down" [])
    ∧ (request "GET" "ping" none none 0 (fun _ => .ok ⟨"tok0", none⟩)
        (fun _ => .transportError "down") exampleClient).sleeps = [1, 1] := by
  obtain ⟨ha, hb, -⟩ := (c6_retry_policy_amended exampleClient "GET" "ping" none none 0
    (fun _ => .ok ⟨"tok0", none⟩)
    (fun n => if n ≤ 2 then .transportError "boom"
      else .response 200 "ok" (.ok (.str "pong"))) rfl).1
    (.legifranceError "Error connecting to Legifrance API: boom" [])
    (.legifranceError "Error connecting to Legifrance API: boom" [])
    (.str "pong") rfl rfl rfl
  obtain ⟨hc, -, hd⟩ := (c6_retry_policy_amended exampleClient "GET" "ping" none none 0
    (fun _ => .ok ⟨"tok0", none⟩) (fun _ => .transportError "down") rfl).2
    (.legifranceError "Error connecting to Legifrance API: down" [])
    (.legifranceError "Error connecting to Legifrance API: down" [])
    (.legifranceError "Error connecting to Legifrance API: down" [])
    rfl rfl rfl
  exact ⟨ha, hb, hc, hd⟩

/-- Claim C2 counterexample: calling `post` with the payload
`{"search": "bail", "code_name": None}` hands the transport a JSON body
in which the null-valued key `code_name` is still present — `post`
forwards its payload unchanged and strips nothing. -/
theorem c2_null_stripping_counterexample :
    (post "search" (some (.obj [("search", .str "bail"), ("code_name", .null)])) 0
        (fun _ => .ok ⟨"tok0", none⟩)
        (fun _ => .response 200 "ok" (.ok (.obj []))) exampleClient).final.2
      = [⟨"POST", "https://api.example/search",
          some (.obj [("search", .str "bail"), ("code_name", .null)]), none⟩]
    ∧ lookupKey "code_name" [("search", JVal.str "bail"), ("code_name", JVal.null)]
      = some JVal.null := ⟨rfl, rfl⟩

/-- Claim C2 amended: `post` forwards its payload to the transport
unchanged (null-valued keys included); the stripping happens in the tool
layer, which applies `clean_dict` to the arguments before calling `post`,
and `clean_dict` removes every null-valued key while preserving every
non-null binding — so bodies sent along the tool path have null-valued
keys absent. -/
theorem c2_null_stripping_amended (st : ClientState) (endpoint : String)
    (now : Int) (tf : Nat → Except ApiError TokenInfo) (events : Nat → RespEvent)
    (args : List (String × JVal)) (k : String)
    (hfresh : is_token_expired st.token_info now = false) :
    (∀ payload : Option JVal,
      ∀ r ∈ (post endpoint payload now tf events st).final.2,
        r = ⟨"POST", build_url st.base_url endpoint, payload, none⟩)
    ∧ lookupKey k (clean_dict args) ≠ some JVal.null
    ∧ (∀ v : JVal, lookupKey k args = some v → v ≠ JVal.null →
        lookupKey k (clean_dict args) = some v) := by
  refine ⟨?_, lookupKey_clean_dict_ne_null k args, ?_⟩
  · intro payload
    exact requestRun_sent_fresh "request" "POST" endpoint payload none now tf events st
      hfresh
  · intro v hv hvn
    exact lookupKey_clean_dict_of_ne_null k args v hv hvn

/-- Witness for C2's amended theorem at the spec's example arguments:
`clean_dict` drops `code_name`, keeps `search`, and a `post` of the
cleaned payload hands the transport exactly that cleaned body. -/
theorem c2_null_stripping_witness :
    lookupKey "code_name"
      (clean_dict [("search", JVal.str "bail"), ("code_name", JVal.null)])
      ≠ some JVal.null
    ∧ lookupKey "search"
      (clean_dict [("search", JVal.str "bail"), ("code_name", JVal.null)])
      = some (JVal.str "bail")
    ∧ (⟨"POST", "https://api.example/search",
        some (.obj [("search", JVal.str "bail")]), none⟩ : SentRequest)
      = ⟨"POST", build_url exampleClient.base_url "search",
          some (.obj (clean_dict [("search", JVal.str "bail"), ("code_name", JVal.null)])),
          none⟩ := by
  obtain ⟨hsent, hnone, hkeep⟩ := c2_null_stripping_amended exampleClient "search" 0
    (fun _ => .ok ⟨"tok0", none⟩) (fun _ => .response 200 "ok" (.ok (.obj [])))
    [("search", JVal.str "bail"), ("code_name", JVal.null)] "code_name" rfl
  obtain ⟨-, -, hkeep2⟩ := c2_null_stripping_amended exampleClient "search" 0
    (fun _ => .ok ⟨"tok0", none⟩) (fun _ => .response 200 "ok" (.ok (.obj [])))
    [("search", JVal.str "bail"), ("code_name", JVal.null)] "search" rfl
  refine ⟨hnone, hkeep2 (JVal.str "bail") rfl (by simp), ?_⟩
  refine hsent
    (some (.obj (clean_dict [("search", JVal.str "bail"), ("code_name", JVal.null)])))
    ⟨"POST", "https://api.example/search", some (.obj [("search", JVal.str "bail")]), none⟩
    ?_
  have hlist : (post "search"
      (some (.obj (clean_dict [("search", JVal.str "bail"), ("code_name", JVal.null)]))) 0
      (fun _ => .ok ⟨"tok0", none⟩) (fun _ => .response 200 "ok" (.ok (.obj [])))
      exampleClient).final.2
      = [⟨"POST", "https://api.example/search",
          some (.obj [("search", JVal.str "bail")]), none⟩] := rfl
  rw [hlist]
  exact List.mem_singleton.mpr rfl

/-- Claim C7: GET/POST asymmetry on non-JSON bodies. When every response
is 2xx but fails to decode as JSON, `get` falls back to one raw GET and
returns the literal body text, while `post` raises `DataParsingError`
with no such fallback. -/
theorem c7_get_post_asymmetry (st : ClientState) (endpoint : String)
    (params : Option (List (String × JVal))) (payload : Option JVal) (now : Int)
    (tf : Nat → Except ApiError TokenInfo) (fbf : Except ApiError TokenInfo)
    (status : Nat) (text msg : String) (fstatus : Nat) (ftext : String)
    (fjson : Except String JVal)
    (hfresh : is_token_expired st.token_info now = false)
    (hst : isSuccessStatus status = true)
    (hfst : isSuccessStatus fstatus = true) :
    (get endpoint params now tf (fun _ => .response status text (.error msg)) fbf
        (.response fstatus ftext fjson) st).2 = .text ftext
    ∧ (post endpoint payload now tf
        (fun _ => .response status text (.error msg)) st).result
      = .error (.dataParsingError "Failed to parse Legifrance response as JSON"
          [("error", .str msg)]) := by
  have hcl : ∀ n : Nat,
      classifyEvent "request"
        ((fun _ => RespEvent.response status text (.error msg)) n)
      = .error (.dataParsingError "Failed to parse Legifrance response as JSON"
          [("error", .str msg)]) := by
    intro n
    simp [classifyEvent, hst, handle_request_error]
  constructor
  · have hrun : request "GET" endpoint none params now tf
        (fun _ => .response status text (.error msg)) st
        = ⟨(st, List.replicate 3 ⟨"GET", build_url st.base_url endpoint, none, params⟩),
          .error (.dataParsingError "Failed to parse Legifrance response as JSON"
            [("error", .str msg)]), 3, [1, 1]⟩ :=
      requestRun_const_error "request" "GET" endpoint none params now tf
        (fun _ => .response status text (.error msg)) st _ hfresh hcl
    rw [get, hrun]
    simp [ensure_token, hfresh, hfst]
  · have hrun : post endpoint payload now tf
        (fun _ => .response status text (.error msg)) st
        = ⟨(st, List.replicate 3 ⟨"POST", build_url st.base_url endpoint, payload, none⟩),
          .error (.dataParsingError "Failed to parse Legifrance response as JSON"
            [("error", .str msg)]), 3, [1, 1]⟩ :=
      requestRun_const_error "request" "POST" endpoint payload none now tf
        (fun _ => .response status text (.error msg)) st _ hfresh hcl
    rw [hrun]

/-- Witness for C7: a server always answering 200 with plain text
`"pong"` makes `get` return the literal `"pong"` and `post` raise
`DataParsingError`. -/
theorem c7_get_post_asymmetry_witness :
    (get "consult/ping" none 0 (fun _ => .ok ⟨"tok0", none⟩)
        (fun _ => .response 200 "pong" (.error "Expecting value"))
        (.ok ⟨"tok0", none⟩) (.response 200 "pong" (.error "Expecting value"))
        exampleClient).2 = .text "pong"
    ∧ (post "consult/ping" none 0 (fun _ => .ok ⟨"tok0", none⟩)
        (fun _ => .response 200 "pong" (.error "Expecting value"))
        exampleClient).result
      = .error (.dataParsingError "Failed to parse Legifrance response as JSON"
          [("error", .str "Expecting value")]) :=
  c7_get_post_asymmetry exampleClient "consult/ping" none none 0
    (fun _ => .ok ⟨"tok0", none⟩) (.ok ⟨"tok0", none⟩) 200 "pong" "Expecting value"
    200 "pong" (.error "Expecting value") rfl rfl rfl

/-- Claim C9: after a completed token refresh (`_ensure_token` /
`_ensure_token_async` running `_update_auth_header`), the `Authorization`
entry of the client's header dict, of the synchronous transport handle,
and of the asynchronous transport handle whenever it is open, all equal
`"Bearer " ++ access_token` of the new token; and an async transport
created lazily after the refresh carries that same header. -/
theorem c9_header_propagation (st : ClientState) (now : Int) (ti : TokenInfo)
    (hexp : is_token_expired st.token_info now = true) :
    (ensure_token st now (.ok ti)).2 = .ok ()
    ∧ (ensure_token st now (.ok ti)).1.token_info = ti
    ∧ (ensure_token st now (.ok ti)).1.headersAuth = some (bearer ti.access_token)
    ∧ (ensure_token st now (.ok ti)).1.syncAuth = some (bearer ti.access_token)
    ∧ ((ensure_token st now (.ok ti)).1.asyncOpen = true →
        (ensure_token st now (.ok ti)).1.asyncAuth = some (bearer ti.access_token))
    ∧ (ensureAsyncClient (ensure_token st now (.ok ti)).1).asyncAuth
        = some (bearer ti.access_token) := by
  have h : ensure_token st now (.ok ti)
      = (update_auth_header { st with token_info := ti }, .ok ()) := by
    simp [ensure_token, hexp]
  rw [h]
  refine ⟨rfl, rfl, rfl, rfl, ?_, ?_⟩
  · intro ho
    simp only [update_auth_header] at ho ⊢
    simp [ho]
  · by_cases ho : st.asyncOpen <;>
      simp [update_auth_header, ensureAsyncClient, ho]

/-- Witness for C9: refreshing an expired-token client that has an open
async handle with a stale header propagates the new bearer value to the
header dict, the sync handle and the async handle, and a lazily created
async handle also carries it. -/
theorem c9_header_propagation_witness :
    (ensure_token ⟨"https://api.example", ⟨"old", some 10⟩, some (bearer "old"),
        some (bearer "old"), true, some (bearer "old")⟩ 11 (.ok ⟨"new", some 5000⟩)).2
      = .ok ()
    ∧ (ensure_token ⟨"https://api.example", ⟨"old", some 10⟩, some (bearer "old"),
        some (bearer "old"), true, some (bearer "old")⟩ 11
        (.ok ⟨"new", some 5000⟩)).1.headersAuth = some (bearer "new")
    ∧ (ensure_token ⟨"https://api.example", ⟨"old", some 10⟩, some (bearer "old"),
        some (bearer "old"), true, some (bearer "old")⟩ 11
        (.ok ⟨"new", some 5000⟩)).1.syncAuth = some (bearer "new")
    ∧ (ensure_token ⟨"https://api.example", ⟨"old", some 10⟩, some (bearer "old"),
        some (bearer "old"), true, some (bearer "old")⟩ 11
        (.ok ⟨"new", some 5000⟩)).1.asyncAuth = some (bearer "new")
    ∧ (ensureAsyncClient (ensure_token ⟨"https://api.example", ⟨"old", some 10⟩,
        some (bearer "old"), some (bearer "old"), false, none⟩ 11
        (.ok ⟨"new", some 5000⟩)).1).asyncAuth = some (bearer "new") := by
  obtain ⟨h1, -, h2, h3, h4, -⟩ := c9_header_propagation
    ⟨"https://api.example", ⟨"old", some 10⟩, some (bearer "old"),
      some (bearer "old"), true, some (bearer "old")⟩ 11 ⟨"new", some 5000⟩ rfl
  obtain ⟨-, -, -, -, -, h5⟩ := c9_header_propagation
    ⟨"https://api.example", ⟨"old", some 10⟩, some (bearer "old"),
      some (bearer "old"), false, none⟩ 11 ⟨"new", some 5000⟩ rfl
  exact ⟨h1, h2, h3, h4 rfl, h5⟩

/-- Claim C10: the constructor raises `ValueError` — without performing
any credential exchange — whenever no static token is supplied and at
least one of `client_id`, `client_secret`, `token_url` is missing; and
with a static token it performs no exchange and sets a `TokenInfo` with
`expires_at` unset. (`acq` is universally quantified and unused in both
conclusions: no exchange result is ever consulted.) -/
theorem c10_constructor_precondition (base_url : String)
    (token client_id client_secret token_url : Option String)
    (acq : Except ApiError TokenInfo) :
    (pyTruthyOptStr token = false →
      (pyTruthyOptStr client_id = false ∨ pyTruthyOptStr client_secret = false
        ∨ pyTruthyOptStr token_url = false) →
      clientInit base_url token client_id client_secret token_url acq
        = .valueErrorRaised)
    ∧ (∀ s : String, token = some s → s ≠ "" →
      clientInit base_url token client_id client_secret token_url acq
        = .made ⟨rstripSlash base_url, ⟨s, none⟩, some (bearer s), some (bearer s),
            false, none⟩ false) := by
  constructor
  · intro ht hc
    have hall : (pyTruthyOptStr client_id && pyTruthyOptStr client_secret
        && pyTruthyOptStr token_url) = false := by
      rcases hc with h | h | h <;> simp [h]
    simp [clientInit, ht, hall]
  · intro s hs hne
    subst hs
    have hsi : s.isEmpty = false := by
      rw [Bool.eq_false_iff]
      intro h
      exact hne ((String.isEmpty_iff s).mp h)
    simp [clientInit, pyTruthyOptStr, hsi]

/-- Witness for C10: a constructor call with no token and a missing
client secret raises `ValueError` whatever the exchange would return, and
a static-token construction yields the never-expiring token client. -/
theorem c10_constructor_precondition_witness :
    clientInit "https://api.example/" none (some "id") none (some "https://tok")
      (.error (.legifranceError "never consulted" [])) = .valueErrorRaised
    ∧ clientInit "https://api.example/" (some "tok0") none none none
      (.error (.legifranceError "never consulted" []))
      = .made ⟨rstripSlash "https://api.example/", ⟨"tok0", none⟩,
          some (bearer "tok0"), some (bearer "tok0"), false, none⟩ false := by
  constructor
  · exact (c10_constructor_precondition "https://api.example/" none (some "id") none
      (some "https://tok") (.error (.legifranceError "never consulted" []))).1 rfl
      (Or.inr (Or.inl rfl))
  · exact (c10_constructor_precondition "https://api.example/" (some "tok0") none none
      none (.error (.legifranceError "never consulted" []))).2 "tok0" rfl (by decide)

/-- Claim C3 counterexample: on first use, with the singleton unset and a
client construction whose token acquisition fails, `make_api_request`
lets the `AuthenticationError` escape across its boundary instead of
returning an error-shaped mapping: `get_api_client()` is called outside
the `try`. -/
theorem c3_make_api_request_counterexample :
    make_api_request "code" none none
      (clientInit "https://api" none (some "id") (some "secret") (some "https://tok")
        (.error (.authenticationError "Legifrance authentication failed" [])))
      0 (fun _ => .ok ⟨"t", none⟩) (fun _ => .transportError "x")
      = .raisedApi (.authenticationError "Legifrance authentication failed" []) := rfl

/-- Claim C3 amended: provided `get_api_client` yields a client (the
singleton already exists, or construction succeeds), `make_api_request`
never raises: it returns the upstream JSON value on success and converts
every `APIError` from the call — the whole taxonomy — into
`{"error": str(e)}`. Only a first-call construction failure escapes. -/
theorem c3_make_api_request_amended (endpoint : String) (arguments : Option JVal)
    (singleton : Option ClientState) (init : InitOutcome) (st : ClientState)
    (now : Int) (tf : Nat → Except ApiError TokenInfo) (events : Nat → RespEvent)
    (hgot : get_api_client singleton init = .got st) :
    (∀ v : JVal,
      (post_async ("/consult/" ++ endpoint) arguments now tf events st).result = .ok v →
      make_api_request endpoint arguments singleton init now tf events = .value v)
    ∧ (∀ e : ApiError,
      (post_async ("/consult/" ++ endpoint) arguments now tf events st).result
        = .error e →
      make_api_request endpoint arguments singleton init now tf events
        = .value (.obj [("error", .str e.message)]))
    ∧ ∃ v : JVal,
      make_api_request endpoint arguments singleton init now tf events = .value v := by
  refine ⟨?_, ?_, ?_⟩
  · intro v hv
    simp [make_api_request, hgot, hv]
  · intro e he
    simp [make_api_request, hgot, he]
  · cases hres : (post_async ("/consult/" ++ endpoint) arguments now tf events st).result
      with
    | error e =>
      exact ⟨.obj [("error", .str e.message)],
        by simp [make_api_request, hgot, hres]⟩
    | ok v => exact ⟨v, by simp [make_api_request, hgot, hres]⟩

/-- Witness for C3's amended theorem: with the singleton set and a server
answering 500, `make_api_request` returns the error-shaped mapping whose
message names the failed method and status. -/
theorem c3_make_api_request_witness :
    make_api_request "code" none (some exampleClient) .valueErrorRaised 0
      (fun _ => .ok ⟨"tok0", none⟩) (fun _ => .response 500 "oops" (.error "x"))
      = .value (.obj [("error",
          .str "Legifrance API async request failed: HTTP 500")]) := by
  have h := (c3_make_api_request_amended "code" none (some exampleClient)
    .valueErrorRaised exampleClient 0 (fun _ => .ok ⟨"tok0", none⟩)
    (fun _ => .response 500 "oops" (.error "x")) rfl).2.1
    (.legifranceError "Legifrance API async request failed: HTTP 500"
      [("status_code", .num 500), ("response", .str "oops")]) rfl
  exact h

end Legifrance
